import Mathlib

/-!
Verification development for the Reverbia upload backend
(`backend/app/api/upload.py`).

The Python module is embedded shallowly: every endpoint becomes a pure Lean
function from an explicit file-system state (`UploadState`) to a new state
plus either a response or a structured error.  The embedding follows the
source line by line:

* the session JSON files under `uploads/sessions/` become an association
  list `sessions : List (String × Session)` keyed by `upload_id`;
* the chunk files under `uploads/chunks/{upload_id}/chunk_NNNN` become an
  association list keyed by `(upload_id, chunk_number)`;
* the directories `uploads/chunks/{upload_id}` (created by `os.makedirs`
  in `upload_chunk` and removed by `shutil.rmtree` in
  `complete_chunked_upload`) are tracked in `chunkDirs`, because
  `shutil.rmtree` raises `FileNotFoundError` when the directory was never
  created;
* the final files under `uploads/audio/{user_id}/` become `artifacts`,
  keyed by their path;
* Python exceptions become values of `ApiErr`.  The blanket
  `except Exception` handlers in `upload_chunk` and
  `complete_chunked_upload` re-raise every inner exception (including the
  explicitly raised `HTTPException`s) as a fresh `HTTPException` with
  status 500; this is modelled by the `ApiErr.internal` wrapper;
* `uuid.uuid4()` results are passed in as parameters (`upload_id`,
  `file_id`), assumed fresh where a theorem needs it;
* the only fallible OS calls whose failure any claim is about are
  `shutil.rmtree` and `os.remove` in the cleanup phase of
  `complete_chunked_upload`; whether they succeed is passed in as the
  booleans `rmtreeOk` / `removeOk` (an existing directory's `rmtree` and
  an existing file's `remove` can still fail, e.g. on permissions).

Machine integers do not occur: Python integers are unbounded, so they are
modelled by `Int` (with `Int.fdiv` for Python's floor division `//`).
-/

namespace Reverbia

/-- Byte strings are modelled as lists of naturals (one per byte). -/
abbrev Bytes := List Nat

/-- First value bound to key `k` in an association list (the model of
reading the file stored at path `k`). -/
def lookupKV {α β : Type} [DecidableEq α] (k : α) : List (α × β) → Option β
  | [] => none
  | p :: l => if p.1 = k then some p.2 else lookupKV k l

/-- Keep only the entries whose key satisfies `q`. -/
def filterKeys {α β : Type} (q : α → Prop) [DecidablePred q] : List (α × β) → List (α × β)
  | [] => []
  | p :: l => if q p.1 then p :: filterKeys q l else filterKeys q l

/-- Remove the entry for key `k` (the model of deleting the file at `k`). -/
def delKV {α β : Type} [DecidableEq α] (k : α) (l : List (α × β)) : List (α × β) :=
  filterKeys (fun a => a ≠ k) l

/-- Overwrite the value at key `k` (the model of writing the file at `k`:
the old content is gone, the new content is bound to `k`). -/
def putKV {α β : Type} [DecidableEq α] (k : α) (v : β) (l : List (α × β)) : List (α × β) :=
  (k, v) :: delKV k l

/-- Python's `list.sort()` for ascending `Int` order (the result is the
sorted rearrangement of the input, which determines it uniquely). -/
def pysort (l : List Int) : List Int :=
  List.insertionSort (· ≤ ·) l

/-- Python's `list(range(1, total_chunks + 1))`: the chunk numbers
`1, 2, ..., total_chunks` in ascending order (empty when `total ≤ 0`). -/
def chunkRange (total : Int) : List Int :=
  (List.range total.toNat).map (fun i : Nat => (i : Int) + 1)

/-- Python's `str.rfind`: index of the last occurrence of `c`, `-1` if
absent. -/
def rfindIdx (c : Char) (cs : List Char) : Int :=
  match cs.reverse.findIdx? (fun ch => ch == c) with
  | some j => (cs.length : Int) - 1 - (j : Int)
  | none => -1

/-- The extension component of `os.path.splitext` (posix rules): the
suffix starting at the last dot, provided that dot lies after the last
`/` and the basename does not consist solely of leading dots up to it. -/
def splitextExt (p : String) : String :=
  let cs := p.toList
  let sepIndex := rfindIdx '/' cs
  let dotIndex := rfindIdx '.' cs
  if dotIndex > sepIndex ∧
      ((cs.drop (sepIndex + 1).toNat).take (dotIndex - (sepIndex + 1)).toNat).any
        (fun ch => ch != '.') then
    String.mk (cs.drop dotIndex.toNat)
  else
    ""

/-- Python's `str.lower()` (ASCII case folding, character by character —
the filenames involved are ASCII). -/
def pyToLower (p : String) : String :=
  String.mk (p.toList.map Char.toLower)

/-- Python's `x or d` for a string `x` (empty strings are falsy). -/
def pyOrStr (x d : String) : String := if x = "" then d else x

/-- Python's `x or d` for an optional string `x` (`None` and `""` are
falsy). -/
def pyOrOptStr (x : Option String) (d : String) : String :=
  match x with
  | some s => if s = "" then d else s
  | none => d

/-- `ALLOWED_AUDIO_TYPES` from the source. -/
def ALLOWED_AUDIO_TYPES : List String :=
  ["audio/webm", "audio/wav", "audio/mp3", "audio/mpeg", "audio/ogg", "audio/m4a", "audio/aac"]

/-- `MAX_FILE_SIZE = 100 * 1024 * 1024` from the source. -/
def MAX_FILE_SIZE : Int := 100 * 1024 * 1024

/-- `CHUNK_SIZE = 5 * 1024 * 1024` from the source (default chunk size). -/
def CHUNK_SIZE : Int := 5 * 1024 * 1024

/-- The valid extension set of `validate_audio_file`. -/
def VALID_EXTENSIONS : List String :=
  [".webm", ".wav", ".mp3", ".ogg", ".m4a", ".aac"]

/-- The chunked-upload session record, as serialized to
`uploads/sessions/{upload_id}.json` (the `upload_id` itself is the key in
`UploadState.sessions`; `created_at` carries no behaviour and is
omitted). -/
structure Session where
  file_id : String
  user_id : String
  filename : String
  file_size : Int
  mime_type : String
  chunk_size : Int
  total_chunks : Int
  uploaded_chunks : List Int
  deriving DecidableEq

/-- The file-system state the upload endpoints read and write. -/
structure UploadState where
  /-- `uploads/sessions/{upload_id}.json`, keyed by `upload_id`. -/
  sessions : List (String × Session)
  /-- `uploads/chunks/{upload_id}/chunk_NNNN`, keyed by
  `(upload_id, chunk_number)`. -/
  blobs : List ((String × Int) × Bytes)
  /-- which `uploads/chunks/{upload_id}` directories exist. -/
  chunkDirs : List String
  /-- `uploads/audio/...` final files, keyed by path. -/
  artifacts : List (String × Bytes)
  deriving DecidableEq

/-- The state of a fresh deployment: no sessions, chunks or files. -/
def initState : UploadState := ⟨[], [], [], []⟩

deriving instance DecidableEq for Except

/-- Structured model of the exceptions the upload module can raise. -/
inductive ApiErr where
  /-- `HTTPException(400, "Unsupported file type: ...")` -/
  | unsupportedMediaType
  /-- `HTTPException(400, "Invalid file extension: ...")` -/
  | invalidExtension
  /-- `HTTPException(413, "File too large. ...")` -/
  | payloadTooLarge
  /-- `ZeroDivisionError` from `(file_size + chunk_size - 1) // chunk_size` -/
  | zeroDivision
  /-- `HTTPException(404, "Upload session not found")` -/
  | sessionNotFound
  /-- `HTTPException(403, "Access denied to upload session")` -/
  | accessDenied
  /-- `HTTPException(400, "Invalid chunk number. Expected 1-{total}")` -/
  | invalidChunkNumber (total : Int)
  /-- `HTTPException(400, "Missing chunks: {sorted(missing)}")` -/
  | missingChunks (missing : List Int)
  /-- `FileNotFoundError` reading `chunk_NNNN` during assembly -/
  | chunkFileNotFound (chunk_number : Int)
  /-- `FileNotFoundError` from `shutil.rmtree` on a never-created dir -/
  | chunksDirNotFound
  /-- some other `OSError` from `shutil.rmtree(chunks_dir)` -/
  | rmtreeFailed
  /-- some `OSError` from `os.remove(session_file)` -/
  | removeFailed
  /-- a blanket `except Exception as e:` caught `e` and re-raised
  `HTTPException(500, f"...: {str e}")`; `str e` keeps the inner
  exception's text (hence its payload, e.g. the missing-chunk list). -/
  | internal (e : ApiErr)
  deriving DecidableEq

/-- HTTP status code the client observes for each error (unhandled
exceptions such as `ZeroDivisionError` surface as a generic 500). -/
def statusCode : ApiErr → Nat
  | .unsupportedMediaType => 400
  | .invalidExtension => 400
  | .payloadTooLarge => 413
  | .zeroDivision => 500
  | .sessionNotFound => 404
  | .accessDenied => 403
  | .invalidChunkNumber _ => 400
  | .missingChunks _ => 400
  | .chunkFileNotFound _ => 500
  | .chunksDirNotFound => 500
  | .rmtreeFailed => 500
  | .removeFailed => 500
  | .internal _ => 500

/-- Response model `UploadResponse` from the source (`upload_url` is
always omitted and dropped here). -/
structure UploadResponse where
  file_id : String
  filename : String
  file_size : Int
  mime_type : String
  message : String
  deriving DecidableEq

/-- Response model `ChunkUploadResponse` from the source. -/
structure ChunkUploadResponse where
  chunk_id : String
  upload_id : String
  chunk_number : Int
  total_chunks : Int
  bytes_received : Int
  message : String
  deriving DecidableEq

/-- Response dict of `start_chunked_upload`. -/
structure StartResponse where
  upload_id : String
  file_id : String
  total_chunks : Int
  chunk_size : Int
  message : String
  deriving DecidableEq

/-- `validate_audio_file`: rejects a content type outside
`ALLOWED_AUDIO_TYPES` (a `None` content type is likewise not in the set),
then, when a non-empty filename is present, rejects an extension (of the
lower-cased name) outside `VALID_EXTENSIONS`.  Returns the exception
raised, if any. -/
def validate_audio_file (content_type filename : Option String) : Option ApiErr :=
  match content_type with
  | none => some .unsupportedMediaType
  | some ct =>
    if ct ∈ ALLOWED_AUDIO_TYPES then
      match filename with
      | some fn =>
        if fn ≠ "" ∧ splitextExt (pyToLower fn) ∉ VALID_EXTENSIONS then some .invalidExtension
        else none
      | none => none
    else some .unsupportedMediaType

/-- The guard `if file.size and file.size > MAX_FILE_SIZE:` — Python
truthiness makes a `None` or `0` size skip the comparison entirely. -/
def sizeCheckFails (size_attr : Option Int) : Bool :=
  match size_attr with
  | some s => s != 0 && decide (s > MAX_FILE_SIZE)
  | none => false

/-- `upload_audio_file` (`POST /api/upload/audio`).  `size_attr` is the
framework-reported `file.size` (possibly `None`); `content` is what
`await file.read()` actually yields; `file_id` stands for the fresh
`uuid4`.  The metadata background task writes no modelled state.  No
fallible OS call occurs on this endpoint's success path, so its blanket
`except` is inert and not modelled. -/
def upload_audio_file (st : UploadState) (content_type filename : Option String)
    (size_attr : Option Int) (content : Bytes) (user_id file_id : String) :
    UploadState × Except ApiErr UploadResponse :=
  match validate_audio_file content_type filename with
  | some e => (st, .error e)
  | none =>
    if sizeCheckFails size_attr then (st, .error .payloadTooLarge)
    else
      let file_extension := pyOrStr (splitextExt (pyOrOptStr filename "")) ".webm"
      let safe_filename := file_id ++ file_extension
      let file_path := "uploads/audio/" ++ user_id ++ "/" ++ safe_filename
      ({ st with artifacts := putKV file_path content st.artifacts },
        .ok { file_id := file_id,
              filename := pyOrOptStr filename safe_filename,
              file_size := (content.length : Int),
              mime_type := pyOrOptStr content_type "audio/webm",
              message := "File uploaded successfully" })

/-- `start_chunked_upload` (`POST /api/upload/audio/chunked/start`).
Validates the mime type and declared size, computes
`total_chunks = (file_size + chunk_size - 1) // chunk_size` (Python floor
division, a `ZeroDivisionError` when `chunk_size = 0`), and writes the
session record.  `upload_id` and `file_id` stand for the two fresh
`uuid4` values. -/
def start_chunked_upload (st : UploadState) (filename : String) (file_size : Int)
    (mime_type : String) (chunk_size : Int) (user_id upload_id file_id : String) :
    UploadState × Except ApiErr StartResponse :=
  if mime_type ∉ ALLOWED_AUDIO_TYPES then (st, .error .unsupportedMediaType)
  else if file_size > MAX_FILE_SIZE then (st, .error .payloadTooLarge)
  else if chunk_size = 0 then (st, .error .zeroDivision)
  else
    let total_chunks := Int.fdiv (file_size + chunk_size - 1) chunk_size
    let session_data : Session :=
      { file_id := file_id, user_id := user_id, filename := filename,
        file_size := file_size, mime_type := mime_type, chunk_size := chunk_size,
        total_chunks := total_chunks, uploaded_chunks := [] }
    ({ st with sessions := putKV upload_id session_data st.sessions },
      .ok { upload_id := upload_id, file_id := file_id, total_chunks := total_chunks,
            chunk_size := chunk_size, message := "Chunked upload session started" })

/-- Body of the `try:` block of `upload_chunk`: session lookup, ownership
check, chunk-number range check, duplicate short-circuit, then chunk-blob
write (creating the chunks directory) followed by the session-record
rewrite with the chunk number appended and the list re-sorted. -/
def upload_chunk_inner (st : UploadState) (upload_id : String) (chunk_number : Int)
    (content : Bytes) (user_id : String) : UploadState × Except ApiErr ChunkUploadResponse :=
  match lookupKV upload_id st.sessions with
  | none => (st, .error .sessionNotFound)
  | some session_data =>
    if session_data.user_id ≠ user_id then (st, .error .accessDenied)
    else if chunk_number < 1 ∨ chunk_number > session_data.total_chunks then
      (st, .error (.invalidChunkNumber session_data.total_chunks))
    else if chunk_number ∈ session_data.uploaded_chunks then
      (st, .ok { chunk_id := upload_id ++ "-" ++ toString chunk_number,
                 upload_id := upload_id, chunk_number := chunk_number,
                 total_chunks := session_data.total_chunks,
                 bytes_received := 0, message := "Chunk already uploaded" })
    else
      let st1 : UploadState :=
        { st with
          chunkDirs := if upload_id ∈ st.chunkDirs then st.chunkDirs else upload_id :: st.chunkDirs,
          blobs := putKV (upload_id, chunk_number) content st.blobs }
      let session' : Session :=
        { session_data with
          uploaded_chunks := pysort (session_data.uploaded_chunks ++ [chunk_number]) }
      ({ st1 with sessions := putKV upload_id session' st1.sessions },
        .ok { chunk_id := upload_id ++ "-" ++ toString chunk_number,
              upload_id := upload_id, chunk_number := chunk_number,
              total_chunks := session_data.total_chunks,
              bytes_received := (content.length : Int),
              message := "Chunk uploaded successfully" })

/-- `upload_chunk` (`POST /api/upload/audio/chunked/upload/{upload_id}`):
the `try:` body wrapped by `except Exception as e: raise
HTTPException(500, f"Chunk upload failed: {str e}")`, which turns every
inner exception — including the deliberate 404/403/400 `HTTPException`s —
into a 500. -/
def upload_chunk (st : UploadState) (upload_id : String) (chunk_number : Int)
    (content : Bytes) (user_id : String) : UploadState × Except ApiErr ChunkUploadResponse :=
  match upload_chunk_inner st upload_id chunk_number content user_id with
  | (st', .error e) => (st', .error (.internal e))
  | ok => ok

/-- The assembly loop of `complete_chunked_upload`: read the chunk blobs
in the given (ascending) order, accumulating the bytes written to the
final file.  Returns the bytes written and, when some chunk file is
missing, the first missing chunk number (the loop stops there, leaving
the final file with the bytes written so far — the file was opened `wb`
before the loop). -/
def assembleChunks (st : UploadState) (upload_id : String) : List Int → Bytes × Option Int
  | [] => ([], none)
  | n :: ns =>
    match lookupKV (upload_id, n) st.blobs with
    | none => ([], some n)
    | some b =>
      let rest := assembleChunks st upload_id ns
      (b ++ rest.1, rest.2)

/-- Body of the `try:` block of `complete_chunked_upload`: session lookup
and ownership check, the completeness check
`uploaded_chunks != list(range(1, total_chunks + 1))` (with the missing
set reported as `sorted(set(expected) - set(uploaded))`), the in-order
assembly into the final artifact, then cleanup: `shutil.rmtree` of the
chunks directory (raising `FileNotFoundError` when it was never created,
i.e. when no chunk was ever uploaded) and `os.remove` of the session
file.  `rmtreeOk` / `removeOk` say whether those two OS calls succeed
when their target exists. -/
def complete_chunked_upload_inner (st : UploadState) (upload_id user_id : String)
    (rmtreeOk removeOk : Bool) : UploadState × Except ApiErr UploadResponse :=
  match lookupKV upload_id st.sessions with
  | none => (st, .error .sessionNotFound)
  | some session_data =>
    if session_data.user_id ≠ user_id then (st, .error .accessDenied)
    else
      let expected_chunks := chunkRange session_data.total_chunks
      if session_data.uploaded_chunks ≠ expected_chunks then
        (st, .error (.missingChunks
          (pysort ((expected_chunks.filter
            (fun m => m ∉ session_data.uploaded_chunks)).dedup))))
      else
        let file_extension := pyOrStr (splitextExt session_data.filename) ".webm"
        let safe_filename := session_data.file_id ++ file_extension
        let final_path := "uploads/audio/" ++ user_id ++ "/" ++ safe_filename
        let assembled := assembleChunks st upload_id expected_chunks
        let st1 : UploadState :=
          { st with artifacts := putKV final_path assembled.1 st.artifacts }
        match assembled.2 with
        | some n => (st1, .error (.chunkFileNotFound n))
        | none =>
          if upload_id ∉ st.chunkDirs then (st1, .error .chunksDirNotFound)
          else if ¬ rmtreeOk then (st1, .error .rmtreeFailed)
          else
            let st2 : UploadState :=
              { st1 with
                blobs := filterKeys (fun k => k.1 ≠ upload_id) st1.blobs,
                chunkDirs := st1.chunkDirs.filter (fun d => d ≠ upload_id) }
            if ¬ removeOk then (st2, .error .removeFailed)
            else
              ({ st2 with sessions := delKV upload_id st2.sessions },
                .ok { file_id := session_data.file_id,
                      filename := session_data.filename,
                      file_size := (assembled.1.length : Int),
                      mime_type := session_data.mime_type,
                      message := "Chunked upload completed successfully" })

/-- `complete_chunked_upload`
(`POST /api/upload/audio/chunked/complete/{upload_id}`): the `try:` body
wrapped by `except Exception as e: raise HTTPException(500, f"Failed to
complete chunked upload: {str e}")`, which turns every inner exception —
the deliberate 404/403/400 ones and any cleanup-phase `OSError` — into a
500. -/
def complete_chunked_upload (st : UploadState) (upload_id user_id : String)
    (rmtreeOk removeOk : Bool) : UploadState × Except ApiErr UploadResponse :=
  match complete_chunked_upload_inner st upload_id user_id rmtreeOk removeOk with
  | (st', .error e) => (st', .error (.internal e))
  | ok => ok

/-- The deterministic final artifact path `complete_chunked_upload`
writes for a session with the given owner, file id and client filename. -/
def finalPath (user_id file_id filename : String) : String :=
  "uploads/audio/" ++ user_id ++ "/" ++ (file_id ++ pyOrStr (splitextExt filename) ".webm")

/-- Run `upload_chunk` once per chunk number in `order`, each carrying
the bytes `b` assigns to its number (an arbitrary arrival order of the
chunks). -/
def uploadMany (st : UploadState) (upload_id user_id : String) (b : Int → Bytes) :
    List Int → UploadState
  | [] => st
  | n :: ns => uploadMany (upload_chunk st upload_id n (b n) user_id).1 upload_id user_id b ns

/-- One client-visible operation on the upload subsystem, with every
nondeterministic input (fresh uuids, request payloads, cleanup-call
outcomes) carried as data. -/
inductive Op where
  | start (upload_id file_id user_id filename : String) (file_size : Int)
      (mime_type : String) (chunk_size : Int)
  | upload (upload_id : String) (chunk_number : Int) (content : Bytes) (user_id : String)
  | complete (upload_id user_id : String) (rmtreeOk removeOk : Bool)
  | uploadAudio (content_type filename : Option String) (size_attr : Option Int)
      (content : Bytes) (user_id file_id : String)

/-- State transition of one operation (the response is discarded). -/
def Op.step (st : UploadState) : Op → UploadState
  | .start uid fid user fn sz mt cs => (start_chunked_upload st fn sz mt cs user uid fid).1
  | .upload uid n c user => (upload_chunk st uid n c user).1
  | .complete uid user r1 r2 => (complete_chunked_upload st uid user r1 r2).1
  | .uploadAudio ct fn sz c user fid => (upload_audio_file st ct fn sz c user fid).1

/-- Run a sequence of operations from a state. -/
def runOps : UploadState → List Op → UploadState
  | st, [] => st
  | st, op :: ops => runOps (Op.step st op) ops

/-- Freshness of the `uuid4` session key: a `start` never reuses a live
session id (uuid collisions are assumed away, as the spec's uniqueness
assumption does). -/
def okOp (st : UploadState) : Op → Bool
  | .start uid _ _ _ _ _ _ => (lookupKV uid st.sessions).isNone
  | _ => true

/-- Every `start` along the run picks a fresh session id. -/
def goodRun : UploadState → List Op → Bool
  | _, [] => true
  | st, op :: ops => okOp st op && goodRun (Op.step st op) ops

/-- The session-record invariant of the spec's data model:
`uploaded_chunks` is strictly ascending (hence duplicate-free) and every
element lies in `[1, total_chunks]`. -/
def sessionInv (s : Session) : Prop :=
  s.uploaded_chunks.Pairwise (· < ·) ∧
    ∀ n ∈ s.uploaded_chunks, 1 ≤ n ∧ n ≤ s.total_chunks

/-! ### Basic lemmas about the file-system model -/

theorem lookupKV_filterKeys {α β : Type} [DecidableEq α] (q : α → Prop) [DecidablePred q]
    (k : α) (l : List (α × β)) :
    lookupKV k (filterKeys q l) = if q k then lookupKV k l else none := by
  induction l with
  | nil => simp [filterKeys, lookupKV]
  | cons p l ih =>
    by_cases hq : q p.1
    · by_cases hk : p.1 = k
      · subst hk
        simp [filterKeys, hq, lookupKV]
      · simp [filterKeys, hq, lookupKV, hk, ih]
    · by_cases hk : p.1 = k
      · subst hk
        simp [filterKeys, hq, lookupKV, ih]
      · simp [filterKeys, hq, lookupKV, hk, ih]

theorem lookupKV_putKV_self {α β : Type} [DecidableEq α] (k : α) (v : β) (l : List (α × β)) :
    lookupKV k (putKV k v l) = some v := by
  simp [putKV, lookupKV]

theorem lookupKV_putKV_ne {α β : Type} [DecidableEq α] {k k' : α} (v : β) (l : List (α × β))
    (h : k' ≠ k) : lookupKV k' (putKV k v l) = lookupKV k' l := by
  simp [putKV, lookupKV, delKV, Ne.symm h, lookupKV_filterKeys, h]

theorem lookupKV_delKV_self {α β : Type} [DecidableEq α] (k : α) (l : List (α × β)) :
    lookupKV k (delKV k l) = none := by
  simp [delKV, lookupKV_filterKeys]

theorem lookupKV_delKV_ne {α β : Type} [DecidableEq α] {k k' : α} (l : List (α × β))
    (h : k' ≠ k) : lookupKV k' (delKV k l) = lookupKV k' l := by
  simp [delKV, lookupKV_filterKeys, h]

theorem pysort_perm (l : List Int) : (pysort l).Perm l :=
  List.perm_insertionSort _ l

theorem pysort_sorted (l : List Int) : (pysort l).Sorted (· ≤ ·) :=
  List.sorted_insertionSort _ l

theorem mem_pysort {a : Int} {l : List Int} : a ∈ pysort l ↔ a ∈ l :=
  (pysort_perm l).mem_iff

theorem pysort_eq_of_sorted {l : List Int} (h : l.Sorted (· ≤ ·)) : pysort l = l :=
  List.eq_of_perm_of_sorted (pysort_perm l) (pysort_sorted l) h

theorem mem_chunkRange {t n : Int} : n ∈ chunkRange t ↔ 1 ≤ n ∧ n ≤ t := by
  rw [chunkRange, List.mem_map]
  constructor
  · rintro ⟨i, hi, rfl⟩
    rw [List.mem_range] at hi
    omega
  · rintro ⟨h1, h2⟩
    refine ⟨(n - 1).toNat, ?_, ?_⟩
    · rw [List.mem_range]
      omega
    · omega

theorem chunkRange_sorted_lt (t : Int) : (chunkRange t).Sorted (· < ·) := by
  unfold chunkRange List.Sorted
  rw [List.pairwise_map]
  refine (List.pairwise_lt_range t.toNat).imp ?_
  intro a b h
  have h' : (a : Int) < (b : Int) := by exact_mod_cast h
  omega

theorem chunkRange_sorted_le (t : Int) : (chunkRange t).Sorted (· ≤ ·) :=
  (chunkRange_sorted_lt t).imp le_of_lt

theorem chunkRange_nodup (t : Int) : (chunkRange t).Nodup :=
  (chunkRange_sorted_lt t).imp ne_of_lt

theorem chunkRange_ne_nil {t : Int} (h : 1 ≤ t) : chunkRange t ≠ [] := by
  intro hnil
  have : (1 : Int) ∈ chunkRange t := mem_chunkRange.mpr ⟨le_refl 1, h⟩
  rw [hnil] at this
  exact (List.not_mem_nil 1) this

theorem missingList_sorted (t : Int) (up : List Int) :
    pysort (((chunkRange t).filter (fun m => m ∉ up)).dedup) =
      (chunkRange t).filter (fun m => m ∉ up) := by
  have hsub : ((chunkRange t).filter (fun m => m ∉ up)).Sorted (· < ·) :=
    List.Pairwise.filter _ (chunkRange_sorted_lt t)
  have hnodup : ((chunkRange t).filter (fun m => m ∉ up)).Nodup := hsub.imp ne_of_lt
  rw [List.Nodup.dedup hnodup]
  exact pysort_eq_of_sorted (hsub.imp le_of_lt)

theorem assembleChunks_ok {st : UploadState} {sid : String} {b : Int → Bytes} :
    ∀ {ns : List Int}, (∀ n ∈ ns, lookupKV (sid, n) st.blobs = some (b n)) →
      assembleChunks st sid ns = ((ns.map b).flatten, none) := by
  intro ns
  induction ns with
  | nil => intro _; simp [assembleChunks]
  | cons n ns ih =>
    intro h
    have hn := h n (List.mem_cons_self n ns)
    have hrest := ih (fun m hm => h m (List.mem_cons_of_mem n hm))
    simp [assembleChunks, hn, hrest]

/-! ### Shape of `upload_chunk` on its main branches -/

theorem upload_chunk_success {st : UploadState} {sid uid : String} {n : Int} {c : Bytes}
    {s : Session} (hs : lookupKV sid st.sessions = some s) (howner : s.user_id = uid)
    (h1 : 1 ≤ n) (h2 : n ≤ s.total_chunks) (hnot : n ∉ s.uploaded_chunks) :
    upload_chunk st sid n c uid =
      ({ sessions :=
           putKV sid { s with uploaded_chunks := pysort (s.uploaded_chunks ++ [n]) } st.sessions,
         blobs := putKV (sid, n) c st.blobs,
         chunkDirs := if sid ∈ st.chunkDirs then st.chunkDirs else sid :: st.chunkDirs,
         artifacts := st.artifacts },
       .ok { chunk_id := sid ++ "-" ++ toString n, upload_id := sid, chunk_number := n,
             total_chunks := s.total_chunks, bytes_received := (c.length : Int),
             message := "Chunk uploaded successfully" }) := by
  unfold upload_chunk upload_chunk_inner
  rw [hs]
  dsimp only
  rw [if_neg (not_ne_iff.mpr howner)]
  rw [if_neg (by rw [not_or]; exact ⟨not_lt.mpr h1, not_lt.mpr h2⟩)]
  rw [if_neg hnot]

theorem upload_chunk_duplicate {st : UploadState} {sid uid : String} {n : Int} {c : Bytes}
    {s : Session} (hs : lookupKV sid st.sessions = some s) (howner : s.user_id = uid)
    (h1 : 1 ≤ n) (h2 : n ≤ s.total_chunks) (hmem : n ∈ s.uploaded_chunks) :
    upload_chunk st sid n c uid =
      (st, .ok { chunk_id := sid ++ "-" ++ toString n, upload_id := sid, chunk_number := n,
                 total_chunks := s.total_chunks, bytes_received := 0,
                 message := "Chunk already uploaded" }) := by
  unfold upload_chunk upload_chunk_inner
  rw [hs]
  dsimp only
  rw [if_neg (not_ne_iff.mpr howner)]
  rw [if_neg (by rw [not_or]; exact ⟨not_lt.mpr h1, not_lt.mpr h2⟩)]
  rw [if_pos hmem]

/-! ### Shape of `complete_chunked_upload` once all chunks are present -/

theorem complete_inner_after_assembly {st : UploadState} {sid uid : String} {s : Session}
    {b : Int → Bytes} (hs : lookupKV sid st.sessions = some s) (howner : s.user_id = uid)
    (hup : s.uploaded_chunks = chunkRange s.total_chunks)
    (hblobs : ∀ n ∈ chunkRange s.total_chunks, lookupKV (sid, n) st.blobs = some (b n))
    (r1 r2 : Bool) :
    complete_chunked_upload_inner st sid uid r1 r2 =
      (let data := ((chunkRange s.total_chunks).map b).flatten
       let st1 : UploadState :=
         { st with artifacts := putKV (finalPath uid s.file_id s.filename) data st.artifacts }
       if sid ∉ st.chunkDirs then (st1, .error .chunksDirNotFound)
       else if ¬ r1 then (st1, .error .rmtreeFailed)
       else
         let st2 : UploadState :=
           { st1 with blobs := filterKeys (fun k => k.1 ≠ sid) st1.blobs,
                      chunkDirs := st1.chunkDirs.filter (fun d => d ≠ sid) }
         if ¬ r2 then (st2, .error .removeFailed)
         else ({ st2 with sessions := delKV sid st2.sessions },
               .ok { file_id := s.file_id, filename := s.filename,
                     file_size := (data.length : Int), mime_type := s.mime_type,
                     message := "Chunked upload completed successfully" })) := by
  unfold complete_chunked_upload_inner
  rw [hs]
  dsimp only
  rw [if_neg (not_ne_iff.mpr howner)]
  rw [if_neg (not_ne_iff.mpr hup)]
  rw [assembleChunks_ok hblobs]
  rfl

theorem complete_success {st : UploadState} {sid uid : String} {s : Session} {b : Int → Bytes}
    (hs : lookupKV sid st.sessions = some s) (howner : s.user_id = uid)
    (hup : s.uploaded_chunks = chunkRange s.total_chunks)
    (hblobs : ∀ n ∈ chunkRange s.total_chunks, lookupKV (sid, n) st.blobs = some (b n))
    (hdir : sid ∈ st.chunkDirs) :
    complete_chunked_upload st sid uid true true =
      ({ sessions := delKV sid st.sessions,
         blobs := filterKeys (fun k => k.1 ≠ sid) st.blobs,
         chunkDirs := st.chunkDirs.filter (fun d => d ≠ sid),
         artifacts := putKV (finalPath uid s.file_id s.filename)
           ((chunkRange s.total_chunks).map b).flatten st.artifacts },
       .ok { file_id := s.file_id, filename := s.filename,
             file_size := ((((chunkRange s.total_chunks).map b).flatten).length : Int),
             mime_type := s.mime_type,
             message := "Chunked upload completed successfully" }) := by
  unfold complete_chunked_upload
  rw [complete_inner_after_assembly hs howner hup hblobs]
  simp only [hdir, not_true_eq_false, if_false, not_false_eq_true, if_neg]

/-! ### Effect of uploading a set of fresh chunks in an arbitrary order -/

theorem uploadMany_spec (b : Int → Bytes) :
    ∀ (order : List Int) (st : UploadState) (sid uid : String) (s : Session),
      lookupKV sid st.sessions = some s →
      s.user_id = uid →
      List.Sorted (· ≤ ·) s.uploaded_chunks →
      order.Nodup →
      (∀ n ∈ order, 1 ≤ n ∧ n ≤ s.total_chunks ∧ n ∉ s.uploaded_chunks) →
      ∃ l : List Int,
        l.Perm (s.uploaded_chunks ++ order) ∧
        List.Sorted (· ≤ ·) l ∧
        lookupKV sid (uploadMany st sid uid b order).sessions =
          some { s with uploaded_chunks := l } ∧
        (∀ k : String × Int,
          lookupKV k (uploadMany st sid uid b order).blobs =
            if k.1 = sid ∧ k.2 ∈ order then some (b k.2) else lookupKV k st.blobs) ∧
        (∀ d : String,
          d ∈ (uploadMany st sid uid b order).chunkDirs ↔
            d ∈ st.chunkDirs ∨ (d = sid ∧ order ≠ [])) ∧
        (uploadMany st sid uid b order).artifacts = st.artifacts := by
  intro order
  induction order with
  | nil =>
    intro st sid uid s hs _ hsort _ _
    refine ⟨s.uploaded_chunks, by simp, hsort, ?_, ?_, ?_, rfl⟩
    · simpa [uploadMany] using hs
    · intro k
      simp [uploadMany]
    · intro d
      simp [uploadMany]
  | cons n ns ih =>
    intro st sid uid s hs howner hsort hnodup hbounds
    obtain ⟨h1, h2, h3⟩ := hbounds n (List.mem_cons_self n ns)
    have hstep := upload_chunk_success (c := b n) hs howner h1 h2 h3
    set s1 : Session := { s with uploaded_chunks := pysort (s.uploaded_chunks ++ [n]) } with hs1
    set R : UploadState :=
      { sessions := putKV sid s1 st.sessions,
        blobs := putKV (sid, n) (b n) st.blobs,
        chunkDirs := if sid ∈ st.chunkDirs then st.chunkDirs else sid :: st.chunkDirs,
        artifacts := st.artifacts } with hR
    have hrun : uploadMany st sid uid b (n :: ns) = uploadMany R sid uid b ns := by
      rw [uploadMany, hstep]
    have hnmem : n ∉ ns := (List.nodup_cons.mp hnodup).1
    have hbounds1 : ∀ m ∈ ns, 1 ≤ m ∧ m ≤ s1.total_chunks ∧ m ∉ s1.uploaded_chunks := by
      intro m hm
      obtain ⟨g1, g2, g3⟩ := hbounds m (List.mem_cons_of_mem n hm)
      refine ⟨g1, g2, ?_⟩
      intro hmem
      rw [hs1] at hmem
      dsimp only at hmem
      rw [mem_pysort, List.mem_append] at hmem
      rcases hmem with h | h
      · exact g3 h
      · rw [List.mem_singleton] at h
        exact hnmem (h ▸ hm)
    obtain ⟨l, hperm, hlsort, hlook, hblobs, hdirs, hart⟩ :=
      ih R sid uid s1 (by rw [hR]; exact lookupKV_putKV_self sid s1 st.sessions) howner
        (pysort_sorted _) (List.nodup_cons.mp hnodup).2 hbounds1
    refine ⟨l, ?_, hlsort, ?_, ?_, ?_, ?_⟩
    · refine hperm.trans ?_
      have hp2 : (s1.uploaded_chunks ++ ns).Perm ((s.uploaded_chunks ++ [n]) ++ ns) :=
        List.Perm.append_right ns (pysort_perm _)
      have he : (s.uploaded_chunks ++ [n]) ++ ns = s.uploaded_chunks ++ (n :: ns) := by
        rw [List.append_assoc]
        rfl
      exact he ▸ hp2
    · rw [hrun]
      exact hlook
    · intro k
      rw [hrun, hblobs k]
      by_cases hk1 : k.1 = sid
      · by_cases hkn : k.2 = n
        · have hk : k = (sid, n) := Prod.ext hk1 hkn
          subst hk
          rw [if_neg (show ¬((sid, n).1 = sid ∧ (sid, n).2 ∈ ns) from fun hc => hnmem hc.2),
            if_pos (show (sid, n).1 = sid ∧ (sid, n).2 ∈ n :: ns from
              ⟨rfl, List.mem_cons_self n ns⟩)]
          rw [hR]
          exact lookupKV_putKV_self (sid, n) (b n) st.blobs
        · by_cases hk2 : k.2 ∈ ns
          · rw [if_pos (show k.1 = sid ∧ k.2 ∈ ns from ⟨hk1, hk2⟩),
              if_pos (show k.1 = sid ∧ k.2 ∈ n :: ns from ⟨hk1, List.mem_cons_of_mem n hk2⟩)]
          · rw [if_neg (show ¬(k.1 = sid ∧ k.2 ∈ ns) from fun hc => hk2 hc.2),
              if_neg (show ¬(k.1 = sid ∧ k.2 ∈ n :: ns) from
                fun hc => (List.mem_cons.mp hc.2).elim hkn hk2)]
            rw [hR]
            exact lookupKV_putKV_ne (b n) st.blobs (fun he => hkn (congrArg Prod.snd he))
      · rw [if_neg (show ¬(k.1 = sid ∧ k.2 ∈ ns) from fun hc => hk1 hc.1),
          if_neg (show ¬(k.1 = sid ∧ k.2 ∈ n :: ns) from fun hc => hk1 hc.1)]
        rw [hR]
        exact lookupKV_putKV_ne (b n) st.blobs (fun he => hk1 (congrArg Prod.fst he))
    · intro d
      rw [hrun, hdirs d, hR]
      dsimp only
      by_cases hmem : sid ∈ st.chunkDirs
      · rw [if_pos hmem]
        constructor
        · rintro (h | ⟨rfl, -⟩)
          · exact Or.inl h
          · exact Or.inl hmem
        · rintro (h | ⟨rfl, -⟩)
          · exact Or.inl h
          · exact Or.inl hmem
      · rw [if_neg hmem]
        constructor
        · rintro (h | ⟨rfl, -⟩)
          · rcases List.mem_cons.mp h with rfl | h'
            · exact Or.inr ⟨rfl, List.cons_ne_nil n ns⟩
            · exact Or.inl h'
          · exact Or.inr ⟨rfl, List.cons_ne_nil n ns⟩
        · rintro (h | ⟨heq, -⟩)
          · exact Or.inl (List.mem_cons_of_mem sid h)
          · rw [heq]
            exact Or.inl (List.mem_cons_self sid st.chunkDirs)
    · rw [hrun, hart, hR]

/-! ### Session bookkeeping across one operation -/

theorem upload_chunk_fst (st : UploadState) (sid : String) (n : Int) (c : Bytes) (uid : String) :
    (upload_chunk st sid n c uid).1 = (upload_chunk_inner st sid n c uid).1 := by
  unfold upload_chunk
  rcases upload_chunk_inner st sid n c uid with ⟨st', r⟩
  cases r <;> rfl

theorem complete_chunked_upload_fst (st : UploadState) (sid uid : String) (r1 r2 : Bool) :
    (complete_chunked_upload st sid uid r1 r2).1 =
      (complete_chunked_upload_inner st sid uid r1 r2).1 := by
  unfold complete_chunked_upload
  rcases complete_chunked_upload_inner st sid uid r1 r2 with ⟨st', r⟩
  cases r <;> rfl

theorem step_sessions (st : UploadState) (op : Op) (hok : okOp st op = true) :
    (Op.step st op).sessions = st.sessions ∨
    (∃ uid sess, sess.uploaded_chunks = ([] : List Int) ∧
      lookupKV uid st.sessions = none ∧
      (Op.step st op).sessions = putKV uid sess st.sessions) ∨
    (∃ uid s n, lookupKV uid st.sessions = some s ∧ 1 ≤ n ∧ n ≤ s.total_chunks ∧
      n ∉ s.uploaded_chunks ∧
      (Op.step st op).sessions =
        putKV uid { s with uploaded_chunks := pysort (s.uploaded_chunks ++ [n]) } st.sessions) ∨
    (∃ uid, (Op.step st op).sessions = delKV uid st.sessions) := by
  cases op with
  | start uid fid user fn sz mt cs =>
    rw [okOp] at hok
    have hnone : lookupKV uid st.sessions = none := Option.isNone_iff_eq_none.mp hok
    unfold Op.step start_chunked_upload
    dsimp only
    by_cases hm : mt ∉ ALLOWED_AUDIO_TYPES
    · rw [if_pos hm]
      exact Or.inl rfl
    · rw [if_neg hm]
      by_cases hsz : sz > MAX_FILE_SIZE
      · rw [if_pos hsz]
        exact Or.inl rfl
      · rw [if_neg hsz]
        by_cases hcs : cs = 0
        · rw [if_pos hcs]
          exact Or.inl rfl
        · rw [if_neg hcs]
          exact Or.inr (Or.inl ⟨uid, _, rfl, hnone, rfl⟩)
  | upload uid n c user =>
    have hfst : (Op.step st (Op.upload uid n c user)).sessions =
        (upload_chunk_inner st uid n c user).1.sessions := by
      show (upload_chunk st uid n c user).1.sessions = _
      rw [upload_chunk_fst]
    rw [hfst]
    unfold upload_chunk_inner
    rcases hlk : lookupKV uid st.sessions with _ | s
    · exact Or.inl rfl
    · dsimp only
      by_cases hown : s.user_id ≠ user
      · rw [if_pos hown]
        exact Or.inl rfl
      · rw [if_neg hown]
        by_cases hrange : n < 1 ∨ n > s.total_chunks
        · rw [if_pos hrange]
          exact Or.inl rfl
        · rw [if_neg hrange]
          by_cases hdup : n ∈ s.uploaded_chunks
          · rw [if_pos hdup]
            exact Or.inl rfl
          · rw [if_neg hdup]
            rw [not_or] at hrange
            exact Or.inr (Or.inr (Or.inl
              ⟨uid, s, n, hlk, not_lt.mp hrange.1, not_lt.mp hrange.2, hdup, rfl⟩))
  | complete uid user r1 r2 =>
    have hfst : (Op.step st (Op.complete uid user r1 r2)).sessions =
        (complete_chunked_upload_inner st uid user r1 r2).1.sessions := by
      show (complete_chunked_upload st uid user r1 r2).1.sessions = _
      rw [complete_chunked_upload_fst]
    rw [hfst]
    unfold complete_chunked_upload_inner
    rcases hlk : lookupKV uid st.sessions with _ | s
    · exact Or.inl rfl
    · dsimp only
      by_cases hown : s.user_id ≠ user
      · rw [if_pos hown]
        exact Or.inl rfl
      · rw [if_neg hown]
        by_cases hne : s.uploaded_chunks ≠ chunkRange s.total_chunks
        · rw [if_pos hne]
          exact Or.inl rfl
        · rw [if_neg hne]
          rcases hasm : (assembleChunks st uid (chunkRange s.total_chunks)).2 with _ | m
          · dsimp only
            by_cases hdir : uid ∉ st.chunkDirs
            · rw [if_pos hdir]
              exact Or.inl rfl
            · rw [if_neg hdir]
              by_cases hr1 : ¬ r1 = true
              · rw [if_pos hr1]
                exact Or.inl rfl
              · rw [if_neg hr1]
                by_cases hr2 : ¬ r2 = true
                · rw [if_pos hr2]
                  exact Or.inl rfl
                · rw [if_neg hr2]
                  exact Or.inr (Or.inr (Or.inr ⟨uid, rfl⟩))
          · exact Or.inl rfl
  | uploadAudio ct fn szat c user fid =>
    unfold Op.step upload_audio_file
    dsimp only
    rcases hv : validate_audio_file ct fn with _ | e
    · dsimp only
      by_cases hsc : sizeCheckFails szat = true
      · rw [if_pos hsc]
        exact Or.inl rfl
      · rw [if_neg hsc]
        exact Or.inl rfl
    · exact Or.inl rfl

theorem stateInv_step {st : UploadState} {op : Op} (hok : okOp st op = true)
    (hinv : ∀ sid s, lookupKV sid st.sessions = some s → sessionInv s) :
    ∀ sid s, lookupKV sid (Op.step st op).sessions = some s → sessionInv s := by
  intro sid s hs
  rcases step_sessions st op hok with heq | ⟨uid, sess, hemp, hfresh, heq⟩ |
    ⟨uid, s0, n, hlk, h1, h2, h3, heq⟩ | ⟨uid, heq⟩
  · rw [heq] at hs
    exact hinv sid s hs
  · rw [heq] at hs
    by_cases hk : sid = uid
    · subst hk
      rw [lookupKV_putKV_self] at hs
      injection hs with hs
      subst hs
      exact ⟨hemp ▸ List.Pairwise.nil, fun m hm => absurd hm (hemp ▸ List.not_mem_nil m)⟩
    · rw [lookupKV_putKV_ne _ _ hk] at hs
      exact hinv sid s hs
  · rw [heq] at hs
    by_cases hk : sid = uid
    · subst hk
      rw [lookupKV_putKV_self] at hs
      injection hs with hs
      subst hs
      obtain ⟨hpw, hbd⟩ := hinv _ _ hlk
      constructor
      · have hnd : (s0.uploaded_chunks ++ [n]).Nodup := by
          rw [List.nodup_append]
          refine ⟨hpw.imp (fun h => ne_of_lt h), List.nodup_singleton n, ?_⟩
          intro a ha hb
          rw [List.mem_singleton] at hb
          exact h3 (hb ▸ ha)
        have hnd2 : (pysort (s0.uploaded_chunks ++ [n])).Nodup :=
          ((pysort_perm _).nodup_iff).mpr hnd
        exact (pysort_sorted _).lt_of_le hnd2
      · intro m hm
        rw [mem_pysort, List.mem_append] at hm
        rcases hm with h | h
        · exact hbd m h
        · rw [List.mem_singleton] at h
          subst h
          exact ⟨h1, h2⟩
    · rw [lookupKV_putKV_ne _ _ hk] at hs
      exact hinv sid s hs
  · rw [heq] at hs
    by_cases hk : sid = uid
    · subst hk
      rw [lookupKV_delKV_self] at hs
      cases hs
    · rw [lookupKV_delKV_ne _ hk] at hs
      exact hinv sid s hs

theorem mono_step {st : UploadState} {op : Op} {sid : String} {s s' : Session}
    (hok : okOp st op = true)
    (hs : lookupKV sid st.sessions = some s)
    (hs' : lookupKV sid (Op.step st op).sessions = some s') :
    s.uploaded_chunks ⊆ s'.uploaded_chunks := by
  rcases step_sessions st op hok with heq | ⟨uid, sess, hemp, hfresh, heq⟩ |
    ⟨uid, s0, n, hlk, h1, h2, h3, heq⟩ | ⟨uid, heq⟩
  · rw [heq, hs] at hs'
    injection hs' with hs'
    subst hs'
    exact fun m hm => hm
  · rw [heq] at hs'
    by_cases hk : sid = uid
    · subst hk
      rw [hfresh] at hs
      cases hs
    · rw [lookupKV_putKV_ne _ _ hk, hs] at hs'
      injection hs' with hs'
      subst hs'
      exact fun m hm => hm
  · rw [heq] at hs'
    by_cases hk : sid = uid
    · subst hk
      rw [lookupKV_putKV_self] at hs'
      injection hs' with hs'
      rw [hlk] at hs
      injection hs with hs
      subst hs
      subst hs'
      intro m hm
      dsimp only
      rw [mem_pysort, List.mem_append]
      exact Or.inl hm
    · rw [lookupKV_putKV_ne _ _ hk, hs] at hs'
      injection hs' with hs'
      subst hs'
      exact fun m hm => hm
  · rw [heq] at hs'
    by_cases hk : sid = uid
    · subst hk
      rw [lookupKV_delKV_self] at hs'
      cases hs'
    · rw [lookupKV_delKV_ne _ hk, hs] at hs'
      injection hs' with hs'
      subst hs'
      exact fun m hm => hm

theorem runOps_inv : ∀ (ops : List Op) (st : UploadState),
    (∀ sid s, lookupKV sid st.sessions = some s → sessionInv s) →
    goodRun st ops = true →
    ∀ sid s, lookupKV sid (runOps st ops).sessions = some s → sessionInv s := by
  intro ops
  induction ops with
  | nil =>
    intro st hinv _
    exact hinv
  | cons op ops ih =>
    intro st hinv hg
    rw [goodRun, Bool.and_eq_true] at hg
    exact ih (Op.step st op) (stateInv_step hg.1 hinv) hg.2

/-! ### Arithmetic of the total-chunk computation -/

theorem fdiv_add_sub_one_eq_ceil {a c : Int} (hc : 0 < c) :
    Int.fdiv (a + c - 1) c = ⌈(a : ℚ) / (c : ℚ)⌉ := by
  rw [Int.fdiv_eq_ediv _ (le_of_lt hc)]
  have hmod := Int.ediv_add_emod (a + c - 1) c
  have hr0 : 0 ≤ (a + c - 1) % c := Int.emod_nonneg _ (ne_of_gt hc)
  have hrc : (a + c - 1) % c < c := Int.emod_lt_of_pos _ hc
  have hub : a ≤ c * ((a + c - 1) / c) := by linarith
  have hlb : c * ((a + c - 1) / c - 1) < a := by
    have hexp : c * ((a + c - 1) / c - 1) = c * ((a + c - 1) / c) - c := by ring
    linarith
  symm
  rw [Int.ceil_eq_iff]
  have hcq : (0 : ℚ) < (c : ℚ) := by exact_mod_cast hc
  constructor
  · rw [lt_div_iff₀ hcq, mul_comm]
    exact_mod_cast hlb
  · rw [div_le_iff₀ hcq, mul_comm]
    exact_mod_cast hub

/-- Under the session invariant, `uploaded_chunks` equals the list
`[1, ..., total_chunks]` exactly when, as a set, it is
`{1, ..., total_chunks}`. -/
theorem uploaded_eq_chunkRange_iff {s : Session} (hinv : sessionInv s) :
    s.uploaded_chunks = chunkRange s.total_chunks ↔
      (∀ n : Int, n ∈ s.uploaded_chunks ↔ 1 ≤ n ∧ n ≤ s.total_chunks) := by
  constructor
  · intro h n
    rw [h, mem_chunkRange]
  · intro h
    refine List.eq_of_perm_of_sorted ?_ (hinv.1.imp le_of_lt) (chunkRange_sorted_le _)
    rw [List.perm_ext_iff_of_nodup (hinv.1.imp ne_of_lt) (chunkRange_nodup _)]
    intro n
    rw [h n, mem_chunkRange]

/-! ### Claim theorems -/

/-- C4: for every declared file size and every `chunk_size > 0` (with an
allowed mime type and a size within the limit, so that the session is
accepted), `start_chunked_upload` returns
`total_chunks = ceil(declared_file_size / chunk_size)`. -/
theorem start_total_chunks_is_ceil (st : UploadState)
    (filename mime_type user_id upload_id file_id : String) (file_size chunk_size : Int)
    (hmime : mime_type ∈ ALLOWED_AUDIO_TYPES) (hsize : file_size ≤ MAX_FILE_SIZE)
    (hcs : 0 < chunk_size) :
    (start_chunked_upload st filename file_size mime_type chunk_size
        user_id upload_id file_id).2 =
      .ok { upload_id := upload_id, file_id := file_id,
            total_chunks := ⌈(file_size : ℚ) / (chunk_size : ℚ)⌉,
            chunk_size := chunk_size, message := "Chunked upload session started" } := by
  unfold start_chunked_upload
  rw [if_neg (not_not_intro hmime), if_neg (not_lt.mpr hsize),
    if_neg (by omega : ¬ chunk_size = 0)]
  dsimp only
  rw [fdiv_add_sub_one_eq_ceil hcs]

/-- Witness for C4 at the spec's concrete scenario: declared size
12000000, chunk size 5000000, giving `total_chunks = ⌈12000000/5000000⌉ = 3`. -/
theorem start_total_chunks_is_ceil_witness :
    (start_chunked_upload initState "large_recording.wav" 12000000 "audio/wav" 5000000
        "alice" "u1" "f1").2 =
      .ok { upload_id := "u1", file_id := "f1",
            total_chunks := ⌈(12000000 : ℚ) / (5000000 : ℚ)⌉,
            chunk_size := 5000000, message := "Chunked upload session started" } ∧
    (⌈(12000000 : ℚ) / (5000000 : ℚ)⌉ : Int) = 3 :=
  ⟨start_total_chunks_is_ceil initState "large_recording.wav" "audio/wav" "alice" "u1" "f1"
      12000000 5000000 (by decide) (by decide) (by decide),
    by norm_num [Int.ceil_eq_iff]⟩

/-- C3: a repeated `upload_chunk` call for a `chunk_number` already in
`uploaded_chunks` (by the session owner, with any bytes, identical or
different) succeeds with `bytes_received = 0` and the
"Chunk already uploaded" message (the code reports `already_uploaded`
through that message — the response model has no boolean field), and
leaves the entire state — stored chunk blobs and session record —
unchanged.  The session invariant supplies the range check the duplicate
branch sits behind. -/
theorem accept_chunk_idempotent (st : UploadState) (upload_id user_id : String)
    (n : Int) (content : Bytes) (s : Session)
    (hs : lookupKV upload_id st.sessions = some s)
    (howner : s.user_id = user_id)
    (hinv : sessionInv s)
    (hmem : n ∈ s.uploaded_chunks) :
    upload_chunk st upload_id n content user_id =
      (st, .ok { chunk_id := upload_id ++ "-" ++ toString n, upload_id := upload_id,
                 chunk_number := n, total_chunks := s.total_chunks, bytes_received := 0,
                 message := "Chunk already uploaded" }) := by
  obtain ⟨h1, h2⟩ := hinv.2 n hmem
  exact upload_chunk_duplicate hs howner h1 h2 hmem

/-- Witness for C3: in a two-chunk session where chunk 1 (bytes `[7]`)
was already received, re-sending chunk 1 with different bytes `[9, 9]`
is a no-op success. -/
theorem accept_chunk_idempotent_witness :
    upload_chunk
        ⟨[("u1", ⟨"f1", "alice", "rec.wav", 10, "audio/wav", 5, 2, [1]⟩)],
          [(("u1", 1), [7])], ["u1"], []⟩
        "u1" 1 [9, 9] "alice" =
      (⟨[("u1", ⟨"f1", "alice", "rec.wav", 10, "audio/wav", 5, 2, [1]⟩)],
          [(("u1", 1), [7])], ["u1"], []⟩,
       .ok { chunk_id := "u1" ++ "-" ++ toString (1 : Int), upload_id := "u1",
             chunk_number := 1, total_chunks := 2, bytes_received := 0,
             message := "Chunk already uploaded" }) :=
  accept_chunk_idempotent
    ⟨[("u1", ⟨"f1", "alice", "rec.wav", 10, "audio/wav", 5, 2, [1]⟩)],
      [(("u1", 1), [7])], ["u1"], []⟩
    "u1" "alice" 1 [9, 9]
    ⟨"f1", "alice", "rec.wav", 10, "audio/wav", 5, 2, [1]⟩
    (by decide) (by decide) ⟨by decide, by decide⟩ (by decide)

/-- C5 (the code is wrong here): every deliberate failure of
`upload_chunk` — unknown session (meant as 404 `NotFound`), foreign
session (403 `Forbidden`), out-of-range chunk number (400
`InvalidArgument`) — is raised inside the `try:` block, so the blanket
`except Exception` catches it and re-raises it as HTTP 500.  The caller
observes status 500 in all three cases, not the intended kind (because
of this, the repo's own test asserting 404 for an unknown session
contradicts the code).  This theorem evaluates the model at one failing
input per kind. -/
theorem upload_chunk_failures_reported_as_500 :
    ((upload_chunk initState "missing" 1 [0] "alice").2 =
        .error (.internal .sessionNotFound) ∧
      statusCode (.internal .sessionNotFound) = 500 ∧
      statusCode .sessionNotFound = 404) ∧
    ((upload_chunk
        ⟨[("u1", ⟨"f1", "alice", "rec.wav", 12, "audio/wav", 5, 3, []⟩)], [], [], []⟩
        "u1" 1 [0] "bob").2 =
        .error (.internal .accessDenied) ∧
      statusCode (.internal .accessDenied) = 500 ∧
      statusCode .accessDenied = 403) ∧
    ((upload_chunk
        ⟨[("u1", ⟨"f1", "alice", "rec.wav", 12, "audio/wav", 5, 3, []⟩)], [], [], []⟩
        "u1" 99 [0] "alice").2 =
        .error (.internal (.invalidChunkNumber 3)) ∧
      statusCode (.internal (.invalidChunkNumber 3)) = 500 ∧
      statusCode (.invalidChunkNumber 3) = 400) := by
  decide

/-- C6 (amended): `start_chunked_upload` performs no validation of
`chunk_size` at all and never raises an `InvalidArgument`-style error for
it: with `chunk_size = 0` the division raises an unhandled
`ZeroDivisionError` (surfaced as a generic 500) and no session is
created; with any non-zero `chunk_size` — including every negative one —
the call succeeds and a session is created with
`total_chunks = (file_size + chunk_size - 1) // chunk_size`. -/
theorem start_no_chunk_size_validation (st : UploadState)
    (filename mime_type user_id upload_id file_id : String) (file_size chunk_size : Int)
    (hmime : mime_type ∈ ALLOWED_AUDIO_TYPES) (hsize : file_size ≤ MAX_FILE_SIZE) :
    (chunk_size = 0 →
      start_chunked_upload st filename file_size mime_type chunk_size
          user_id upload_id file_id =
        (st, .error .zeroDivision)) ∧
    (chunk_size ≠ 0 →
      start_chunked_upload st filename file_size mime_type chunk_size
          user_id upload_id file_id =
        ({ st with
            sessions :=
              putKV upload_id
                { file_id := file_id, user_id := user_id, filename := filename,
                  file_size := file_size, mime_type := mime_type,
                  chunk_size := chunk_size,
                  total_chunks := Int.fdiv (file_size + chunk_size - 1) chunk_size,
                  uploaded_chunks := [] }
                st.sessions },
         .ok { upload_id := upload_id, file_id := file_id,
               total_chunks := Int.fdiv (file_size + chunk_size - 1) chunk_size,
               chunk_size := chunk_size,
               message := "Chunked upload session started" })) := by
  constructor
  · intro h0
    unfold start_chunked_upload
    rw [if_neg (not_not_intro hmime), if_neg (not_lt.mpr hsize), if_pos h0]
  · intro hne
    unfold start_chunked_upload
    rw [if_neg (not_not_intro hmime), if_neg (not_lt.mpr hsize), if_neg hne]

/-- Witness for C6 (amended) at `chunk_size = -1`: the zero case errors
without a session, the negative case succeeds and stores a session. -/
theorem start_no_chunk_size_validation_witness :
    ((0 : Int) = 0 →
      start_chunked_upload initState "a.wav" 10 "audio/wav" 0 "alice" "u4" "f4" =
        (initState, .error .zeroDivision)) ∧
    ((-1 : Int) ≠ 0 →
      start_chunked_upload initState "a.wav" 10 "audio/wav" (-1) "alice" "u3" "f3" =
        ({ initState with
            sessions :=
              putKV "u3"
                { file_id := "f3", user_id := "alice", filename := "a.wav",
                  file_size := 10, mime_type := "audio/wav", chunk_size := -1,
                  total_chunks := Int.fdiv (10 + -1 - 1) (-1),
                  uploaded_chunks := [] }
                initState.sessions },
         .ok { upload_id := "u3", file_id := "f3",
               total_chunks := Int.fdiv (10 + -1 - 1) (-1), chunk_size := -1,
               message := "Chunked upload session started" })) :=
  ⟨(start_no_chunk_size_validation initState "a.wav" "audio/wav" "alice" "u4" "f4" 10 0
      (by decide) (by decide)).1,
    (start_no_chunk_size_validation initState "a.wav" "audio/wav" "alice" "u3" "f3" 10 (-1)
      (by decide) (by decide)).2⟩

/-- Counterexample for C6 as frozen: with `chunk_size = -1 ≤ 0` the call
does not fail with any error, and a session is created. -/
theorem start_negative_chunk_size_accepted :
    ((-1 : Int) ≤ 0) ∧
    (start_chunked_upload initState "a.wav" 10 "audio/wav" (-1) "alice" "u3" "f3").2.isOk
      = true ∧
    (lookupKV "u3"
      (start_chunked_upload initState "a.wav" 10 "audio/wav" (-1) "alice" "u3" "f3").1.sessions
      ).isSome = true := by
  decide

/-- C9: when the framework-reported `file.size` attribute is `None` or
`0` (both falsy in Python, so `if file.size and file.size > MAX_FILE_SIZE`
skips the comparison), `upload_audio_file` performs no maximum-size check
at all: the upload is accepted for content of any byte length — including
lengths exceeding `MAX_FILE_SIZE` (the theorem places no bound on
`content`) — and reports `file_size` as the length actually read. -/
theorem upload_audio_no_size_check_when_size_falsy (st : UploadState)
    (content_type filename : Option String) (size_attr : Option Int)
    (content : Bytes) (user_id file_id : String)
    (hvalid : validate_audio_file content_type filename = none)
    (hsz : size_attr = none ∨ size_attr = some 0) :
    upload_audio_file st content_type filename size_attr content user_id file_id =
      ({ st with
          artifacts :=
            putKV ("uploads/audio/" ++ user_id ++ "/"
                ++ (file_id ++ pyOrStr (splitextExt (pyOrOptStr filename "")) ".webm"))
              content st.artifacts },
        .ok { file_id := file_id,
              filename := pyOrOptStr filename
                (file_id ++ pyOrStr (splitextExt (pyOrOptStr filename "")) ".webm"),
              file_size := (content.length : Int),
              mime_type := pyOrOptStr content_type "audio/webm",
              message := "File uploaded successfully" }) := by
  have hfalse : sizeCheckFails size_attr = false := by
    rcases hsz with rfl | rfl <;> rfl
  unfold upload_audio_file
  rw [hvalid]
  dsimp only
  rw [if_neg (show ¬ (sizeCheckFails size_attr = true) from by
    rw [hfalse]; exact Bool.false_ne_true)]

/-- Witness for C9: reported size `some 0`, actual content of
104857601 bytes — one more than `MAX_FILE_SIZE` — is accepted. -/
theorem upload_audio_no_size_check_when_size_falsy_witness :
    (upload_audio_file initState (some "audio/wav") (some "t.wav") (some 0)
        (List.replicate 104857601 0) "alice" "f9" =
      ({ initState with
          artifacts :=
            putKV ("uploads/audio/" ++ "alice" ++ "/"
                ++ ("f9" ++ pyOrStr (splitextExt (pyOrOptStr (some "t.wav") "")) ".webm"))
              (List.replicate 104857601 0) initState.artifacts },
        .ok { file_id := "f9",
              filename := pyOrOptStr (some "t.wav")
                ("f9" ++ pyOrStr (splitextExt (pyOrOptStr (some "t.wav") "")) ".webm"),
              file_size := ((List.replicate 104857601 (0 : Nat)).length : Int),
              mime_type := pyOrOptStr (some "audio/wav") "audio/webm",
              message := "File uploaded successfully" })) ∧
    MAX_FILE_SIZE < ((List.replicate 104857601 (0 : Nat)).length : Int) :=
  ⟨upload_audio_no_size_check_when_size_falsy initState (some "audio/wav") (some "t.wav")
      (some 0) (List.replicate 104857601 0) "alice" "f9" (by decide) (Or.inr rfl),
    by norm_num [MAX_FILE_SIZE]⟩

/-- C7 (amended): once `complete_chunked_upload` has written the final
artifact, a failing cleanup call does NOT leave the call reporting
success: the `OSError` escapes into the blanket handler and the caller
receives a 500 error — cleanup failures are surfaced, not
logged-and-swallowed — even though the artifact was durably written (it
is present in the resulting state, and the session record survives, so a
later retry re-runs the whole completion). -/
theorem complete_cleanup_failure_surfaces_error
    (st : UploadState) (upload_id user_id : String) (s : Session) (b : Int → Bytes)
    (hs : lookupKV upload_id st.sessions = some s)
    (howner : s.user_id = user_id)
    (hup : s.uploaded_chunks = chunkRange s.total_chunks)
    (hblobs : ∀ n ∈ chunkRange s.total_chunks, lookupKV (upload_id, n) st.blobs = some (b n))
    (hdir : upload_id ∈ st.chunkDirs) :
    (complete_chunked_upload st upload_id user_id false true =
      ({ st with
          artifacts :=
            putKV (finalPath user_id s.file_id s.filename)
              ((chunkRange s.total_chunks).map b).flatten st.artifacts },
        .error (.internal .rmtreeFailed))) ∧
    (complete_chunked_upload st upload_id user_id true false =
      ({ sessions := st.sessions,
         blobs := filterKeys (fun k => k.1 ≠ upload_id) st.blobs,
         chunkDirs := st.chunkDirs.filter (fun d => d ≠ upload_id),
         artifacts :=
           putKV (finalPath user_id s.file_id s.filename)
             ((chunkRange s.total_chunks).map b).flatten st.artifacts },
       .error (.internal .removeFailed))) := by
  constructor
  · unfold complete_chunked_upload
    rw [complete_inner_after_assembly hs howner hup hblobs]
    dsimp only
    rw [if_neg (not_not_intro hdir)]
    rfl
  · unfold complete_chunked_upload
    rw [complete_inner_after_assembly hs howner hup hblobs]
    dsimp only
    rw [if_neg (not_not_intro hdir)]
    rfl

/-- Witness for C7 (amended): a one-chunk session, fully received; a
failing `shutil.rmtree` yields a wrapped 500 while the assembled
artifact `[7]` sits at the final path. -/
theorem complete_cleanup_failure_surfaces_error_witness :
    complete_chunked_upload
        ⟨[("u1", ⟨"f1", "alice", "rec.wav", 5, "audio/wav", 5, 1, [1]⟩)],
          [(("u1", 1), [7])], ["u1"], []⟩ "u1" "alice" false true =
      (⟨[("u1", ⟨"f1", "alice", "rec.wav", 5, "audio/wav", 5, 1, [1]⟩)],
          [(("u1", 1), [7])], ["u1"],
          [(finalPath "alice" "f1" "rec.wav", [7])]⟩,
        .error (.internal .rmtreeFailed)) :=
  (complete_cleanup_failure_surfaces_error
      ⟨[("u1", ⟨"f1", "alice", "rec.wav", 5, "audio/wav", 5, 1, [1]⟩)],
        [(("u1", 1), [7])], ["u1"], []⟩
      "u1" "alice" ⟨"f1", "alice", "rec.wav", 5, "audio/wav", 5, 1, [1]⟩ (fun _ => [7])
      (by decide) (by decide) (by decide) (by decide) (by decide)).1

/-- Counterexample for C7 as frozen: in a fully received one-chunk
session, a failing chunk-blob deletion makes the call fail (it does not
report success), although the final artifact has been written. -/
theorem complete_cleanup_failure_not_swallowed :
    ((complete_chunked_upload
        ⟨[("u2", ⟨"f2", "bob", "take.wav", 5, "audio/wav", 5, 1, [1]⟩)],
          [(("u2", 1), [4, 5])], ["u2"], []⟩ "u2" "bob" false true).2).isOk = false ∧
    lookupKV (finalPath "bob" "f2" "take.wav")
      ((complete_chunked_upload
        ⟨[("u2", ⟨"f2", "bob", "take.wav", 5, "audio/wav", 5, 1, [1]⟩)],
          [(("u2", 1), [4, 5])], ["u2"], []⟩ "u2" "bob" false true).1).artifacts =
      some [4, 5] := by
  decide

/-- C10 (amended): starting a session with declared size 0 (allowed mime
type, `chunk_size ≥ 1`) succeeds with `total_chunks = 0`, and an
immediate `complete_chunked_upload` passes the completeness check and
writes the empty (zero-byte) artifact — but instead of returning
`total_bytes = 0` it fails with a wrapped `FileNotFoundError` (HTTP 500),
because `shutil.rmtree` targets the chunks directory that no
`upload_chunk` call ever created. -/
theorem zero_size_session_complete_fails
    (filename mime_type user_id upload_id file_id : String) (chunk_size : Int)
    (hmime : mime_type ∈ ALLOWED_AUDIO_TYPES) (hcs : 1 ≤ chunk_size) :
    ((start_chunked_upload initState filename 0 mime_type chunk_size
        user_id upload_id file_id).2 =
      .ok { upload_id := upload_id, file_id := file_id, total_chunks := 0,
            chunk_size := chunk_size, message := "Chunked upload session started" }) ∧
    ((complete_chunked_upload
        (start_chunked_upload initState filename 0 mime_type chunk_size
          user_id upload_id file_id).1
        upload_id user_id true true).2 = .error (.internal .chunksDirNotFound)) ∧
    lookupKV (finalPath user_id file_id filename)
      (complete_chunked_upload
        (start_chunked_upload initState filename 0 mime_type chunk_size
          user_id upload_id file_id).1
        upload_id user_id true true).1.artifacts = some [] := by
  have htot : Int.fdiv (0 + chunk_size - 1) chunk_size = 0 := by
    rw [Int.fdiv_eq_ediv _ (by omega)]
    exact Int.ediv_eq_zero_of_lt (by omega) (by omega)
  have hstart : start_chunked_upload initState filename 0 mime_type chunk_size
      user_id upload_id file_id =
      ({ initState with
          sessions :=
            putKV upload_id
              { file_id := file_id, user_id := user_id, filename := filename,
                file_size := 0, mime_type := mime_type, chunk_size := chunk_size,
                total_chunks := 0, uploaded_chunks := [] }
              initState.sessions },
        .ok { upload_id := upload_id, file_id := file_id, total_chunks := 0,
              chunk_size := chunk_size,
              message := "Chunked upload session started" }) := by
    unfold start_chunked_upload
    rw [if_neg (not_not_intro hmime),
      if_neg (show ¬ ((0 : Int) > MAX_FILE_SIZE) from by norm_num [MAX_FILE_SIZE]),
      if_neg (show ¬ chunk_size = 0 from by omega)]
    dsimp only
    rw [htot]
  rw [hstart]
  refine ⟨rfl, ?_, ?_⟩
  · unfold complete_chunked_upload complete_chunked_upload_inner
    dsimp only [initState]
    rw [lookupKV_putKV_self]
    dsimp only
    rw [if_neg (not_ne_iff.mpr rfl), if_neg (not_ne_iff.mpr rfl)]
    rfl
  · unfold complete_chunked_upload complete_chunked_upload_inner
    dsimp only [initState]
    rw [lookupKV_putKV_self]
    dsimp only
    rw [if_neg (not_ne_iff.mpr rfl), if_neg (not_ne_iff.mpr rfl)]
    exact lookupKV_putKV_self _ _ _

/-- Witness for C10 (amended), at chunk size 5. -/
theorem zero_size_session_complete_fails_witness :
    ((start_chunked_upload initState "a.wav" 0 "audio/wav" 5 "alice" "u9" "f9").2 =
      .ok { upload_id := "u9", file_id := "f9", total_chunks := 0,
            chunk_size := 5, message := "Chunked upload session started" }) ∧
    ((complete_chunked_upload
        (start_chunked_upload initState "a.wav" 0 "audio/wav" 5 "alice" "u9" "f9").1
        "u9" "alice" true true).2 = .error (.internal .chunksDirNotFound)) ∧
    lookupKV (finalPath "alice" "f9" "a.wav")
      (complete_chunked_upload
        (start_chunked_upload initState "a.wav" 0 "audio/wav" 5 "alice" "u9" "f9").1
        "u9" "alice" true true).1.artifacts = some [] :=
  zero_size_session_complete_fails "a.wav" "audio/wav" "alice" "u9" "f9" 5
    (by decide) (by decide)

/-- Counterexample for C10 as frozen: the zero-size session starts with
`total_chunks = 0`, but the immediate completion does not succeed. -/
theorem zero_size_immediate_complete_errors :
    ((start_chunked_upload initState "b.wav" 0 "audio/wav" 5000000 "carol" "u5" "f5").2 =
      .ok { upload_id := "u5", file_id := "f5", total_chunks := 0, chunk_size := 5000000,
            message := "Chunked upload session started" }) ∧
    ((complete_chunked_upload
        (start_chunked_upload initState "b.wav" 0 "audio/wav" 5000000 "carol" "u5" "f5").1
        "u5" "carol" true true).2).isOk = false := by
  decide

/-- C2 (amended to sessions with `total_chunks ≥ 1` whose filesystem
side-state is intact — chunks directory present and a blob per received
chunk, as holds for every reachable session with at least one received
chunk — and with the cleanup calls succeeding): `complete_chunked_upload`
succeeds exactly when `received_chunk_numbers` is, as a set,
`{1, ..., total_chunks}`; for any other received set it fails carrying
exactly the ascending list of missing chunk numbers (the complement of
the received set inside `[1, total_chunks]`), wrapped by the blanket
500 handler. -/
theorem complete_succeeds_iff_received_complete
    (st : UploadState) (upload_id user_id : String) (s : Session)
    (hs : lookupKV upload_id st.sessions = some s)
    (howner : s.user_id = user_id)
    (hinv : sessionInv s)
    (htot : 1 ≤ s.total_chunks)
    (hdir : upload_id ∈ st.chunkDirs)
    (hblobs : ∀ n ∈ s.uploaded_chunks, (lookupKV (upload_id, n) st.blobs).isSome = true) :
    ((complete_chunked_upload st upload_id user_id true true).2.isOk = true ↔
      (∀ n : Int, n ∈ s.uploaded_chunks ↔ 1 ≤ n ∧ n ≤ s.total_chunks)) ∧
    (s.uploaded_chunks ≠ chunkRange s.total_chunks →
      (complete_chunked_upload st upload_id user_id true true).2 =
        .error (.internal (.missingChunks
          ((chunkRange s.total_chunks).filter (fun m => m ∉ s.uploaded_chunks))))) := by
  have hfail : s.uploaded_chunks ≠ chunkRange s.total_chunks →
      (complete_chunked_upload st upload_id user_id true true).2 =
        .error (.internal (.missingChunks
          ((chunkRange s.total_chunks).filter (fun m => m ∉ s.uploaded_chunks)))) := by
    intro hne
    unfold complete_chunked_upload complete_chunked_upload_inner
    rw [hs]
    dsimp only
    rw [if_neg (not_ne_iff.mpr howner), if_pos hne]
    dsimp only
    rw [missingList_sorted]
  refine ⟨?_, hfail⟩
  by_cases heq : s.uploaded_chunks = chunkRange s.total_chunks
  · have hb : ∀ n ∈ chunkRange s.total_chunks,
        lookupKV (upload_id, n) st.blobs =
          some ((lookupKV (upload_id, n) st.blobs).getD []) := by
      intro n hn
      have hsme := hblobs n (heq ▸ hn)
      rcases hx : lookupKV (upload_id, n) st.blobs with _ | v
      · rw [hx] at hsme
        cases hsme
      · rfl
    rw [complete_success hs howner heq hb hdir]
    constructor
    · intro _
      exact (uploaded_eq_chunkRange_iff hinv).mp heq
    · intro _
      rfl
  · rw [hfail heq]
    constructor
    · intro habs
      cases habs
    · intro hset
      exact absurd ((uploaded_eq_chunkRange_iff hinv).mpr hset) heq

/-- Witness for C2 (amended): a two-chunk session.  With both chunks
received, completion succeeds (and the received set is `{1, 2}`); with
only chunk 1 received, completion fails carrying missing list `[2]`. -/
theorem complete_succeeds_iff_received_complete_witness :
    (((complete_chunked_upload
        ⟨[("u1", ⟨"f1", "alice", "rec.wav", 10, "audio/wav", 5, 2, [1, 2]⟩)],
          [(("u1", 1), [7]), (("u1", 2), [8, 9])], ["u1"], []⟩
        "u1" "alice" true true).2.isOk = true ↔
      (∀ n : Int, n ∈ [(1 : Int), 2] ↔ 1 ≤ n ∧ n ≤ 2)) ∧
      ([(1 : Int), 2] ≠ chunkRange 2 →
        (complete_chunked_upload
          ⟨[("u1", ⟨"f1", "alice", "rec.wav", 10, "audio/wav", 5, 2, [1, 2]⟩)],
            [(("u1", 1), [7]), (("u1", 2), [8, 9])], ["u1"], []⟩
          "u1" "alice" true true).2 =
          .error (.internal (.missingChunks
            ((chunkRange 2).filter (fun m => m ∉ [(1 : Int), 2])))))) ∧
    (((complete_chunked_upload
        ⟨[("u2", ⟨"f2", "alice", "rec.wav", 10, "audio/wav", 5, 2, [1]⟩)],
          [(("u2", 1), [7])], ["u2"], []⟩
        "u2" "alice" true true).2.isOk = true ↔
      (∀ n : Int, n ∈ [(1 : Int)] ↔ 1 ≤ n ∧ n ≤ 2)) ∧
      ([(1 : Int)] ≠ chunkRange 2 →
        (complete_chunked_upload
          ⟨[("u2", ⟨"f2", "alice", "rec.wav", 10, "audio/wav", 5, 2, [1]⟩)],
            [(("u2", 1), [7])], ["u2"], []⟩
          "u2" "alice" true true).2 =
          .error (.internal (.missingChunks
            ((chunkRange 2).filter (fun m => m ∉ [(1 : Int)])))))) :=
  ⟨complete_succeeds_iff_received_complete
      ⟨[("u1", ⟨"f1", "alice", "rec.wav", 10, "audio/wav", 5, 2, [1, 2]⟩)],
        [(("u1", 1), [7]), (("u1", 2), [8, 9])], ["u1"], []⟩
      "u1" "alice" ⟨"f1", "alice", "rec.wav", 10, "audio/wav", 5, 2, [1, 2]⟩
      (by decide) (by decide) ⟨by decide, by decide⟩ (by decide) (by decide) (by decide),
    complete_succeeds_iff_received_complete
      ⟨[("u2", ⟨"f2", "alice", "rec.wav", 10, "audio/wav", 5, 2, [1]⟩)],
        [(("u2", 1), [7])], ["u2"], []⟩
      "u2" "alice" ⟨"f2", "alice", "rec.wav", 10, "audio/wav", 5, 2, [1]⟩
      (by decide) (by decide) ⟨by decide, by decide⟩ (by decide) (by decide) (by decide)⟩

/-- Counterexample for C2 as frozen: for a zero-size session,
`received_chunk_numbers` (empty) IS exactly `{1, ..., total_chunks}`
(also empty), yet `complete_chunked_upload` does not succeed — the
claimed "if" direction of the iff fails. -/
theorem complete_succeeds_iff_counterexample :
    ((lookupKV "u6"
        (start_chunked_upload initState "c.wav" 0 "audio/wav" 7 "dave" "u6" "f6").1.sessions).map
      (fun s => decide (s.uploaded_chunks = chunkRange s.total_chunks)) = some true) ∧
    ((complete_chunked_upload
        (start_chunked_upload initState "c.wav" 0 "audio/wav" 7 "dave" "u6" "f6").1
        "u6" "dave" true true).2).isOk = false := by
  decide

/-- C1 (amended to `total_chunks ≥ 1`): start a session from the fresh
state, accept every chunk number `1..total_chunks` exactly once in an
ARBITRARY arrival order (any permutation), and complete: the final
artifact's byte sequence equals the concatenation of the chunk bytes in
strictly ascending chunk-number order — no reordering, no gaps — and the
returned `total_bytes` (the response's `file_size`) is the length of
that concatenation. -/
theorem complete_assembles_chunks_in_ascending_order
    (filename mime_type user_id upload_id file_id : String)
    (file_size chunk_size total : Int) (b : Int → Bytes) (order : List Int)
    (hmime : mime_type ∈ ALLOWED_AUDIO_TYPES) (hsize : file_size ≤ MAX_FILE_SIZE)
    (hcs : chunk_size ≠ 0)
    (htotal : total = Int.fdiv (file_size + chunk_size - 1) chunk_size)
    (htot1 : 1 ≤ total)
    (horder : order.Perm (chunkRange total)) :
    (complete_chunked_upload
        (uploadMany
          (start_chunked_upload initState filename file_size mime_type chunk_size
            user_id upload_id file_id).1
          upload_id user_id b order)
        upload_id user_id true true).2 =
      .ok { file_id := file_id, filename := filename,
            file_size := ((((chunkRange total).map b).flatten).length : Int),
            mime_type := mime_type,
            message := "Chunked upload completed successfully" } ∧
    lookupKV (finalPath user_id file_id filename)
      (complete_chunked_upload
        (uploadMany
          (start_chunked_upload initState filename file_size mime_type chunk_size
            user_id upload_id file_id).1
          upload_id user_id b order)
        upload_id user_id true true).1.artifacts =
      some ((chunkRange total).map b).flatten := by
  have hstart : (start_chunked_upload initState filename file_size mime_type chunk_size
      user_id upload_id file_id).1 =
      (⟨putKV upload_id ⟨file_id, user_id, filename, file_size, mime_type, chunk_size,
          total, []⟩ [], [], [], []⟩ : UploadState) := by
    unfold start_chunked_upload
    rw [if_neg (not_not_intro hmime), if_neg (not_lt.mpr hsize), if_neg hcs]
    dsimp only
    rw [← htotal]
    rfl
  rw [hstart]
  have hnodup : order.Nodup := (horder.nodup_iff).mpr (chunkRange_nodup total)
  have hbounds : ∀ n ∈ order, 1 ≤ n ∧ n ≤ total ∧ n ∉ ([] : List Int) := by
    intro n hn
    obtain ⟨g1, g2⟩ := mem_chunkRange.mp (horder.mem_iff.mp hn)
    exact ⟨g1, g2, List.not_mem_nil n⟩
  obtain ⟨l, hperm, hlsort, hlook, hblobs, hdirs, hart⟩ :=
    uploadMany_spec b order
      (⟨putKV upload_id ⟨file_id, user_id, filename, file_size, mime_type, chunk_size,
          total, []⟩ [], [], [], []⟩ : UploadState)
      upload_id user_id
      ⟨file_id, user_id, filename, file_size, mime_type, chunk_size, total, []⟩
      (lookupKV_putKV_self _ _ _) rfl List.sorted_nil hnodup hbounds
  have hl : l = chunkRange total :=
    List.eq_of_perm_of_sorted (hperm.trans horder) hlsort (chunkRange_sorted_le total)
  rw [hl] at hlook
  have hone : order ≠ [] := by
    intro h0
    rw [h0] at horder
    exact chunkRange_ne_nil htot1 horder.nil_eq.symm
  have hblobs2 : ∀ n ∈ chunkRange total,
      lookupKV (upload_id, n)
        (uploadMany
          (⟨putKV upload_id ⟨file_id, user_id, filename, file_size, mime_type, chunk_size,
              total, []⟩ [], [], [], []⟩ : UploadState)
          upload_id user_id b order).blobs = some (b n) := by
    intro n hn
    rw [hblobs (upload_id, n)]
    rw [if_pos ⟨rfl, horder.mem_iff.mpr hn⟩]
  have hdir2 : upload_id ∈
      (uploadMany
        (⟨putKV upload_id ⟨file_id, user_id, filename, file_size, mime_type, chunk_size,
            total, []⟩ [], [], [], []⟩ : UploadState)
        upload_id user_id b order).chunkDirs := by
    rw [hdirs upload_id]
    exact Or.inr ⟨rfl, hone⟩
  constructor
  · rw [complete_success hlook rfl rfl hblobs2 hdir2]
  · rw [complete_success hlook rfl rfl hblobs2 hdir2]
    exact lookupKV_putKV_self _ _ _

/-- Witness for C1 (amended) at the spec's concrete shape scaled down:
size 12, chunk size 5, so 3 chunks, arriving in order 2, 1, 3; the
artifact is chunk 1's bytes, then chunk 2's, then chunk 3's. -/
theorem complete_assembles_chunks_in_ascending_order_witness :
    (complete_chunked_upload
        (uploadMany
          (start_chunked_upload initState "rec.wav" 12 "audio/wav" 5
            "alice" "u1" "f1").1
          "u1" "alice" (fun n => if n = 1 then [1, 1] else if n = 2 then [2] else [3])
          [2, 1, 3])
        "u1" "alice" true true).2 =
      .ok { file_id := "f1", filename := "rec.wav",
            file_size := ((((chunkRange 3).map
              (fun n => if n = 1 then [1, 1] else if n = 2 then [2] else [3])).flatten).length
              : Int),
            mime_type := "audio/wav",
            message := "Chunked upload completed successfully" } ∧
    lookupKV (finalPath "alice" "f1" "rec.wav")
      (complete_chunked_upload
        (uploadMany
          (start_chunked_upload initState "rec.wav" 12 "audio/wav" 5
            "alice" "u1" "f1").1
          "u1" "alice" (fun n => if n = 1 then [1, 1] else if n = 2 then [2] else [3])
          [2, 1, 3])
        "u1" "alice" true true).1.artifacts =
      some ((chunkRange 3).map
        (fun n => if n = 1 then [1, 1] else if n = 2 then [2] else [3])).flatten :=
  complete_assembles_chunks_in_ascending_order "rec.wav" "audio/wav" "alice" "u1" "f1"
    12 5 3 (fun n => if n = 1 then [1, 1] else if n = 2 then [2] else [3]) [2, 1, 3]
    (by decide) (by decide) (by decide) (by decide) (by decide) (by decide)

/-- Counterexample for C1 as frozen: in a zero-size session every chunk
number in `1..total_chunks` has been accepted (vacuously — the check
`uploaded_chunks = [1..total_chunks]` holds), and the empty artifact is
even written, but `complete_chunked_upload` raises instead of returning
`total_bytes`. -/
theorem complete_all_chunks_received_yet_errors :
    ((lookupKV "u7"
        (start_chunked_upload initState "d.wav" 0 "audio/wav" 9 "erin" "u7" "f7").1.sessions).map
      (fun s => decide (s.uploaded_chunks = chunkRange s.total_chunks)) = some true) ∧
    ((complete_chunked_upload
        (start_chunked_upload initState "d.wav" 0 "audio/wav" 9 "erin" "u7" "f7").1
        "u7" "erin" true true).2).isOk = false ∧
    lookupKV (finalPath "erin" "f7" "d.wav")
      ((complete_chunked_upload
        (start_chunked_upload initState "d.wav" 0 "audio/wav" 9 "erin" "u7" "f7").1
        "u7" "erin" true true).1).artifacts = some [] := by
  decide

/-- C8: along every operation sequence from the fresh deployment state
(with a fresh uuid at every `start`, per the spec's uniqueness
assumption), every live session record satisfies the invariant —
`uploaded_chunks` strictly ascending, hence duplicate-free, with every
element in `[1, total_chunks]` — and any single further operation can
only grow a session's received set: whenever the session still exists
afterwards, its old `uploaded_chunks` is contained in the new one
(deleting the whole session is the only way the set disappears). -/
theorem received_chunks_invariant_and_monotone (ops : List Op)
    (hg : goodRun initState ops = true) :
    (∀ sid s, lookupKV sid (runOps initState ops).sessions = some s → sessionInv s) ∧
    (∀ (op : Op) (sid : String) (s s' : Session),
      okOp (runOps initState ops) op = true →
      lookupKV sid (runOps initState ops).sessions = some s →
      lookupKV sid (Op.step (runOps initState ops) op).sessions = some s' →
      s.uploaded_chunks ⊆ s'.uploaded_chunks) := by
  constructor
  · refine runOps_inv ops initState ?_ hg
    intro sid s hs
    exact Option.noConfusion hs
  · intro op sid s s' hok hs hs'
    exact mono_step hok hs hs'

/-- Witness for C8: a concrete run — start a 4-chunk session, accept
chunks 2 then 1, duplicate-accept chunk 2 — satisfies the invariant and
monotonicity conclusions. -/
theorem received_chunks_invariant_and_monotone_witness :
    (∀ sid s,
      lookupKV sid (runOps initState
        [Op.start "u1" "f1" "alice" "a.wav" 16 "audio/wav" 4,
         Op.upload "u1" 2 [1, 2] "alice", Op.upload "u1" 1 [3] "alice",
         Op.upload "u1" 2 [9] "alice"]).sessions = some s → sessionInv s) ∧
    (∀ (op : Op) (sid : String) (s s' : Session),
      okOp (runOps initState
        [Op.start "u1" "f1" "alice" "a.wav" 16 "audio/wav" 4,
         Op.upload "u1" 2 [1, 2] "alice", Op.upload "u1" 1 [3] "alice",
         Op.upload "u1" 2 [9] "alice"]) op = true →
      lookupKV sid (runOps initState
        [Op.start "u1" "f1" "alice" "a.wav" 16 "audio/wav" 4,
         Op.upload "u1" 2 [1, 2] "alice", Op.upload "u1" 1 [3] "alice",
         Op.upload "u1" 2 [9] "alice"]).sessions = some s →
      lookupKV sid (Op.step (runOps initState
        [Op.start "u1" "f1" "alice" "a.wav" 16 "audio/wav" 4,
         Op.upload "u1" 2 [1, 2] "alice", Op.upload "u1" 1 [3] "alice",
         Op.upload "u1" 2 [9] "alice"]) op).sessions = some s' →
      s.uploaded_chunks ⊆ s'.uploaded_chunks) :=
  received_chunks_invariant_and_monotone
    [Op.start "u1" "f1" "alice" "a.wav" 16 "audio/wav" 4,
     Op.upload "u1" 2 [1, 2] "alice", Op.upload "u1" 1 [3] "alice",
     Op.upload "u1" 2 [9] "alice"] (by decide)

end Reverbia
